import Mathlib

/-!
Shallow embedding of `src/streaming/vision/base.py`: the `StandardTransform`
helper and the `StreamingVisionDataset` adapter, together with proofs of the
transform-composition contract the module implements.
-/

namespace StreamingVision

/-- Opaque sample values flowing through the pipeline.  `base n` stands for a raw,
caller-supplied value (for example a decoded PIL image or a label); `tensor v` is the
canonical tensor representation produced from `v` by torchvision's `to_tensor`.
Making the conversion a constructor keeps it observable: a converted value is never
equal to the raw value it came from, as in the Python library. -/
inductive Val where
  | base : Nat → Val
  | tensor : Val → Val
deriving DecidableEq

/-- Model of torchvision's `to_tensor` (imported by the source module): the fixed
standard input-normalization routine converting a raw value to the canonical tensor
representation. -/
def to_tensor (x : Val) : Val := Val.tensor x

/-- Python exceptions that can cross the boundaries the claims talk about:
`KeyError` from a dict lookup, `ValueError` from the constructor check, and opaque
errors raised by the external engine or by caller-supplied transform callables. -/
inductive Err where
  | keyError : String → Err
  | valueError : String → Err
  | engineError : Nat → Err
  | transformError : Nat → Err
deriving DecidableEq

/-- A caller-supplied separate transform callable: takes one value and either
returns a value or raises. -/
abbrev SepFn := Val → Except Err Val

/-- A caller-supplied joint transform callable over the (input, target) pair. -/
abbrev JointFn := Val → Val → Except Err (Val × Val)

/-- The raw sample object returned by the engine, modelled as a Python dict from
string keys to values (first-match association list). -/
abbrev Obj := List (String × Val)

/-- Python dict subscript `obj[k]`: the value at `k`, or a `KeyError` naming the
missing key. -/
def dictGet : Obj → String → Except Err Val
  | [], k => .error (.keyError k)
  | (k₂, v) :: rest, k => if k = k₂ then .ok v else dictGet rest k

/-- Modelled from the spec: the external streaming engine's retrieval operation
(`streaming.base.StreamingDataset.get_item`, which is not under `src/`): a single
operation taking a global sample index and returning the raw sample object, or
failing with whatever error the engine raises. -/
abbrev Engine := Nat → Except Err Obj

/-- Embedding of `StandardTransform.__init__`: stores the two optional callables. -/
structure StandardTransform where
  transform : Option SepFn
  target_transform : Option SepFn

/-- Embedding of `StandardTransform.__call__`:
`if self.transform: x = self.transform(x) else: x = to_tensor(x)`;
`if self.target_transform: y = self.target_transform(y)`; `return x, y`.
An ordinary callable is truthy, so the Python truthiness test is `Option` presence. -/
def StandardTransform.call (self : StandardTransform) (x y : Val) :
    Except Err (Val × Val) := do
  let x ← match self.transform with
    | some f => f x
    | none => pure (to_tensor x)
  let y ← match self.target_transform with
    | some g => g y
    | none => pure y
  pure (x, y)

/-- The value stored in `self.transforms` after `StreamingVisionDataset.__init__`:
either the caller's joint callable, or the `StandardTransform` built from the two
separate callables.  Both are used only by calling them. -/
inductive Transforms where
  | joint : JointFn → Transforms
  | standard : StandardTransform → Transforms

/-- Calling the stored `self.transforms` object on the raw pair. -/
def Transforms.call : Transforms → Val → Val → Except Err (Val × Val)
  | .joint f, x, y => f x y
  | .standard t, x, y => t.call x y

/-- The transform-related state of a constructed `StreamingVisionDataset`: the three
attributes assigned in `__init__`.  Engine-side configuration is forwarded verbatim
to the external engine and holds no adapter logic, so it is not part of this state. -/
structure StreamingVisionDataset where
  transform : Option SepFn
  target_transform : Option SepFn
  transforms : Transforms

/-- The exact `ValueError` raised by `StreamingVisionDataset.__init__` when both
transform families are supplied. -/
def configError : Err :=
  .valueError "Only transforms or transform/target_transform can be passed as an argument"

/-- Embedding of the transform-configuration logic of
`StreamingVisionDataset.__init__`:
`has_transforms = transforms is not None`;
`has_separate_transform = transform is not None or target_transform is not None`;
raise `ValueError` when both hold; otherwise store `transform`, `target_transform`,
and `transforms` (defaulted to `StandardTransform(transform, target_transform)` when
no joint transform was given). -/
def StreamingVisionDataset.init (transforms : Option JointFn)
    (transform : Option SepFn) (target_transform : Option SepFn) :
    Except Err StreamingVisionDataset :=
  let has_transforms := transforms.isSome
  let has_separate_transform := transform.isSome || target_transform.isSome
  if has_transforms && has_separate_transform then
    .error configError
  else
    .ok ⟨transform, target_transform,
      match transforms with
      | some f => .joint f
      | none => .standard ⟨transform, target_transform⟩⟩

/-- Embedding of `StreamingVisionDataset.get_item`:
`obj = super().get_item(idx)`; `x = obj['x']`; `y = obj['y']`;
`return self.transforms(x, y)`.  The call to the base class is the external
engine, passed as a parameter. -/
def StreamingVisionDataset.get_item (self : StreamingVisionDataset)
    (engine : Engine) (idx : Nat) : Except Err (Val × Val) := do
  let obj ← engine idx
  let x ← dictGet obj "x"
  let y ← dictGet obj "y"
  self.transforms.call x y

/-- State-passing form of `get_item`: the method body assigns no attribute of
`self`, so the post-state of the translation is the unchanged receiver. -/
def StreamingVisionDataset.get_item_st (self : StreamingVisionDataset)
    (engine : Engine) (idx : Nat) :
    Except Err (Val × Val) × StreamingVisionDataset :=
  (self.get_item engine idx, self)

/-- A sequence of `get_item` calls on one adapter, threading the adapter state
through the state-passing form of each call. -/
def runCalls (engine : Engine) :
    StreamingVisionDataset → List Nat →
    List (Except Err (Val × Val)) × StreamingVisionDataset
  | self, [] => ([], self)
  | self, idx :: rest =>
    let step := self.get_item_st engine idx
    let tail := runCalls engine step.2 rest
    (step.1 :: tail.1, tail.2)

theorem bind_ok_eq {α β : Type} (a : α) (f : α → Except Err β) :
    (Except.ok a : Except Err α) >>= f = f a := rfl

theorem bind_error_eq {α β : Type} (e : Err) (f : α → Except Err β) :
    (Except.error e : Except Err α) >>= f = Except.error e := rfl

theorem dictGet_error (obj : Obj) (k : String) (e : Err)
    (h : dictGet obj k = .error e) : e = .keyError k := by
  induction obj with
  | nil => exact (Except.error.inj h).symm
  | cons kv rest ih =>
    rw [dictGet] at h
    split at h
    · exact absurd h (by simp)
    · exact ih h

/-- C1 fails on the code at a concrete input: a `StandardTransform` with both
sub-transforms absent, applied to raw values `(base 0, base 1)`, does not return the
pair unchanged — the input goes through `to_tensor`, exactly as in the default
configuration, so no observable asymmetry exists. -/
theorem c1_counterexample :
    (StandardTransform.mk none none).call (Val.base 0) (Val.base 1)
      ≠ Except.ok (Val.base 0, Val.base 1) := by
  intro h
  have h₂ := Except.ok.inj h
  exact absurd (congrArg Prod.fst h₂) (by decide)

/-- C1 (amended): when the input sub-transform is absent, `StandardTransform` does
not pass the input through — it applies `to_tensor`.  `Separate(None, ft)` yields
`(to_tensor x, ft y)`, and `Separate(None, None)` yields `(to_tensor x, y)`, which
is observationally identical to the `Default` configuration's policy rather than
different from it. -/
theorem c1_amended (ft : Val → Val) (x y : Val) :
    (StandardTransform.mk none (some (fun v => Except.ok (ft v)))).call x y
        = Except.ok (to_tensor x, ft y)
  ∧ (StandardTransform.mk none none).call x y = Except.ok (to_tensor x, y)
  ∧ Transforms.call (.standard (StandardTransform.mk none none)) x y
        = Except.ok (to_tensor x, y) :=
  ⟨rfl, rfl, rfl⟩

/-- C3: with no transform configuration supplied, `init` succeeds and resolves to
the `StandardTransform(None, None)` policy; its application returns
`(to_tensor x, y)` — input normalized, target untouched — and `get_item` on a raw
pair returns `(to_tensor raw_x, raw_y)`. -/
theorem c3_default_normalizes (x y : Val) (idx : Nat) :
    StreamingVisionDataset.init none none none
        = Except.ok ⟨none, none, .standard ⟨none, none⟩⟩
  ∧ (StandardTransform.mk none none).call x y = Except.ok (to_tensor x, y)
  ∧ (StreamingVisionDataset.mk none none
        (.standard ⟨none, none⟩)).get_item
        (fun _ => Except.ok [("x", x), ("y", y)]) idx
        = Except.ok (to_tensor x, y) :=
  ⟨rfl, rfl, rfl⟩

/-- C4: constructing with only a joint transform `f` stores `f` itself as the
policy, and both the policy call and `get_item` return exactly `f x y` verbatim —
whatever pair or error `f` produces — with no post-processing or validation. -/
theorem c4_joint_verbatim (f : JointFn) (x y : Val) (idx : Nat) :
    StreamingVisionDataset.init (some f) none none
        = Except.ok ⟨none, none, .joint f⟩
  ∧ Transforms.call (.joint f) x y = f x y
  ∧ (StreamingVisionDataset.mk none none (.joint f)).get_item
        (fun _ => Except.ok [("x", x), ("y", y)]) idx = f x y :=
  ⟨rfl, rfl, rfl⟩

/-- C5: constructing with only an input transform `T` resolves to the
`StandardTransform(T, None)` policy; applying it returns `(T x, y)`, and
`get_item` on a raw pair returns `(T raw_x, raw_y)`. -/
theorem c5_separate_input_only (T : Val → Val) (x y : Val) (idx : Nat) :
    StreamingVisionDataset.init none (some (fun v => Except.ok (T v))) none
        = Except.ok ⟨some (fun v => Except.ok (T v)), none,
            .standard ⟨some (fun v => Except.ok (T v)), none⟩⟩
  ∧ (StandardTransform.mk (some (fun v => Except.ok (T v))) none).call x y
        = Except.ok (T x, y)
  ∧ (StreamingVisionDataset.mk (some (fun v => Except.ok (T v))) none
        (.standard ⟨some (fun v => Except.ok (T v)), none⟩)).get_item
        (fun _ => Except.ok [("x", x), ("y", y)]) idx
        = Except.ok (T x, y) :=
  ⟨rfl, rfl, rfl⟩

/-- C2: `init` raises the configuration `ValueError` exactly when a joint transform
is supplied together with at least one separate transform; and at retrieval time a
`ValueError` can only originate from the external engine or from the stored policy's
callables — the adapter itself raises none. -/
theorem c2_configuration_error (ts : Option JointFn) (t tt : Option SepFn) :
    (StreamingVisionDataset.init ts t tt = Except.error configError
        ↔ ts.isSome = true ∧ (t.isSome = true ∨ tt.isSome = true))
  ∧ (∀ ds engine idx m, StreamingVisionDataset.init ts t tt = Except.ok ds →
      ds.get_item engine idx = Except.error (Err.valueError m) →
      engine idx = Except.error (Err.valueError m)
        ∨ ∃ x y, ds.transforms.call x y = Except.error (Err.valueError m)) := by
  constructor
  · cases ts <;> cases t <;> cases tt <;> simp [StreamingVisionDataset.init]
  · intro ds engine idx m _ hget
    rw [StreamingVisionDataset.get_item] at hget
    cases hE : engine idx with
    | error e =>
      rw [hE, bind_error_eq] at hget
      have he : e = Err.valueError m := Except.error.inj hget
      exact Or.inl (by rw [he])
    | ok obj =>
      rw [hE, bind_ok_eq] at hget
      cases hx : dictGet obj "x" with
      | error e =>
        rw [hx, bind_error_eq] at hget
        have := dictGet_error obj "x" e hx
        simp [this] at hget
      | ok x =>
        rw [hx, bind_ok_eq] at hget
        cases hy : dictGet obj "y" with
        | error e =>
          rw [hy, bind_error_eq] at hget
          have := dictGet_error obj "y" e hy
          simp [this] at hget
        | ok y =>
          rw [hy, bind_ok_eq] at hget
          exact Or.inr ⟨x, y, hget⟩

/-- Closed instance of C2: supplying a joint transform together with an input
transform makes construction fail with the configuration error. -/
theorem c2_witness :
    StreamingVisionDataset.init (some fun x y => Except.ok (x, y))
        (some fun v => Except.ok v) none = Except.error configError :=
  (c2_configuration_error _ _ _).1.mpr ⟨rfl, Or.inl rfl⟩

/-- C6: whenever the engine returns an object carrying values at keys x and y,
`get_item` returns exactly the stored policy applied to that raw pair, with no
other processing. -/
theorem c6_get_item_decomposition (engine : Engine) (self : StreamingVisionDataset)
    (idx : Nat) (obj : Obj) (x y : Val)
    (hobj : engine idx = Except.ok obj)
    (hx : dictGet obj "x" = Except.ok x)
    (hy : dictGet obj "y" = Except.ok y) :
    self.get_item engine idx = self.transforms.call x y := by
  rw [StreamingVisionDataset.get_item, hobj, bind_ok_eq, hx, bind_ok_eq, hy,
    bind_ok_eq]

/-- Closed instance of C6 at a concrete engine, object and index. -/
theorem c6_witness :
    (StreamingVisionDataset.mk none none (.standard ⟨none, none⟩)).get_item
        (fun _ => Except.ok [("x", Val.base 0), ("y", Val.base 1)]) 0
      = Transforms.call (.standard ⟨none, none⟩) (Val.base 0) (Val.base 1) :=
  c6_get_item_decomposition _ _ 0 [("x", Val.base 0), ("y", Val.base 1)]
    (Val.base 0) (Val.base 1) rfl rfl rfl

/-- C7: errors propagate unchanged — an engine error surfaces verbatim from
`get_item`; an error raised by the stored policy on the extracted pair surfaces
verbatim from `get_item`; and an error raised by a supplied input callable
surfaces verbatim from `StandardTransform.call`.  No catching, wrapping or
translation occurs, and no transformed sample is returned on error. -/
theorem c7_error_propagation (engine : Engine) (self : StreamingVisionDataset)
    (idx : Nat) (e : Err) :
    (engine idx = Except.error e → self.get_item engine idx = Except.error e)
  ∧ (∀ obj x y, engine idx = Except.ok obj → dictGet obj "x" = Except.ok x →
      dictGet obj "y" = Except.ok y → self.transforms.call x y = Except.error e →
      self.get_item engine idx = Except.error e)
  ∧ (∀ f g x y, f x = Except.error e →
      (StandardTransform.mk (some f) g).call x y = Except.error e) := by
  refine ⟨?_, ?_, ?_⟩
  · intro hE
    rw [StreamingVisionDataset.get_item, hE, bind_error_eq]
  · intro obj x y hobj hx hy hcall
    rw [StreamingVisionDataset.get_item, hobj, bind_ok_eq, hx, bind_ok_eq, hy,
      bind_ok_eq, hcall]
  · intro f g x y hf
    rw [StandardTransform.call]
    simp only [hf, bind_error_eq]

/-- Closed instance of C7: an engine error at index 3 surfaces verbatim. -/
theorem c7_witness :
    (StreamingVisionDataset.mk none none (.standard ⟨none, none⟩)).get_item
        (fun _ => Except.error (Err.engineError 7)) 3
      = Except.error (Err.engineError 7) :=
  (c7_error_propagation _ _ 3 _).1 rfl

/-- C8: two `get_item` calls at the same index on the same adapter, run in
sequence with the state threaded through, produce the same result twice — the
adapter caches nothing and keeps no state of its own. -/
theorem c8_repeat_deterministic (engine : Engine) (self : StreamingVisionDataset)
    (i : Nat) :
    runCalls engine self [i, i]
      = ([self.get_item engine i, self.get_item engine i], self) := rfl

/-- C9: `get_item` mutates no adapter state — the post-state of each call has the
same `transform`, `target_transform` and `transforms` attributes as the pre-state,
and every call in any sequence of retrievals uses the same policy value held
since construction. -/
theorem c9_no_mutation (engine : Engine) (self : StreamingVisionDataset)
    (idx : Nat) (l : List Nat) :
    (self.get_item_st engine idx).2.transform = self.transform
  ∧ (self.get_item_st engine idx).2.target_transform = self.target_transform
  ∧ (self.get_item_st engine idx).2.transforms = self.transforms
  ∧ runCalls engine self l = (l.map fun j => self.get_item engine j, self) := by
  refine ⟨rfl, rfl, rfl, ?_⟩
  induction l with
  | nil => rfl
  | cons i rest ih => simp [runCalls, StreamingVisionDataset.get_item_st, ih]

/-- C10: `get_item` extracts exactly the values at keys x (first) and y from the
raw object; if a key is absent the `KeyError` for that key propagates, and the
result is then independent of the configured transforms — no transform runs. -/
theorem c10_key_extraction (engine : Engine) (self other : StreamingVisionDataset)
    (idx : Nat) (obj : Obj) (hobj : engine idx = Except.ok obj) :
    (dictGet obj "x" = Except.error (Err.keyError "x") →
        self.get_item engine idx = Except.error (Err.keyError "x")
      ∧ self.get_item engine idx = other.get_item engine idx)
  ∧ (∀ x, dictGet obj "x" = Except.ok x →
      dictGet obj "y" = Except.error (Err.keyError "y") →
        self.get_item engine idx = Except.error (Err.keyError "y")
      ∧ self.get_item engine idx = other.get_item engine idx)
  ∧ (∀ x y, dictGet obj "x" = Except.ok x → dictGet obj "y" = Except.ok y →
      self.get_item engine idx = self.transforms.call x y) := by
  refine ⟨?_, ?_, ?_⟩
  · intro hx
    have hs : self.get_item engine idx = Except.error (Err.keyError "x") := by
      rw [StreamingVisionDataset.get_item, hobj, bind_ok_eq, hx, bind_error_eq]
    have ho : other.get_item engine idx = Except.error (Err.keyError "x") := by
      rw [StreamingVisionDataset.get_item, hobj, bind_ok_eq, hx, bind_error_eq]
    exact ⟨hs, hs.trans ho.symm⟩
  · intro x hx hy
    have hs : self.get_item engine idx = Except.error (Err.keyError "y") := by
      rw [StreamingVisionDataset.get_item, hobj, bind_ok_eq, hx, bind_ok_eq, hy,
        bind_error_eq]
    have ho : other.get_item engine idx = Except.error (Err.keyError "y") := by
      rw [StreamingVisionDataset.get_item, hobj, bind_ok_eq, hx, bind_ok_eq, hy,
        bind_error_eq]
    exact ⟨hs, hs.trans ho.symm⟩
  · intro x y hx hy
    rw [StreamingVisionDataset.get_item, hobj, bind_ok_eq, hx, bind_ok_eq, hy,
      bind_ok_eq]

/-- Closed instance of C10: an object without key x makes `get_item` fail with
the `KeyError` for x, before any transform is consulted. -/
theorem c10_witness :
    (StreamingVisionDataset.mk none none (.standard ⟨none, none⟩)).get_item
        (fun _ => Except.ok [("z", Val.base 0)]) 0
      = Except.error (Err.keyError "x") :=
  ((c10_key_extraction _ (StreamingVisionDataset.mk none none
      (.standard ⟨none, none⟩))
    (StreamingVisionDataset.mk none none (.joint fun x y => Except.ok (x, y)))
    0 [("z", Val.base 0)] rfl).1 rfl).1

end StreamingVision
